import Mathlib

/-!
Shallow embedding of the state synchronization and caching layer of the
digitopia gas project: `src/shared_state.py` (the module imported by the
dashboard and the chatbot) and `src/shared_state_sheets.py` (the older
variant).  Times (`time.time()`, `datetime.now()`, `total_seconds()`) are
modelled as integer seconds.  The ISO-8601 codec (`datetime.fromisoformat`,
`isoformat`) and the JSON codecs (`json.loads`, `json.dumps`) are abstracted
as fields of an `Env` of pure functions, so every theorem is quantified over
them; exceptions raised by the remote client are modelled by the fetched row
list being `none`, and local-file IO failure by a boolean.
-/

/-- A Python timestamp value inside a buffered item: either a `datetime`
object (an instant, in integer seconds) or an ISO string. -/
inductive TimeVal where
  | dt (t : Int)
  | str (s : String)
deriving DecidableEq

/-- A buffered snapshot dict: its optional `timestamp` entry plus the
remaining sensor fields (inert payload). -/
structure SnapItem where
  timestamp : Option TimeVal
  payload : List (String × Int)
deriving DecidableEq

/-- An element of the producer's in-memory `data_buffer`: a snapshot dict, or
a value that is not a dict (skipped by the `isinstance(item, dict)` guard of
the cleaning loops). -/
inductive BufItem where
  | dict (s : SnapItem)
  | nonDict (tag : Nat)
deriving DecidableEq

/-- The `prediction_data` dict: prediction class, class probabilities,
confidence. -/
structure PredData where
  prediction : Int
  probabilities : List Rat
  confidence : Rat
deriving DecidableEq

/-- The module-level `_pending_data` slot as written by `save_shared_state`:
the raw arguments of the save call, the buffer untruncated. -/
structure PendingData where
  data_buffer : List BufItem
  scenario : String
  row_indices : List (String × Int)
  prediction_data : PredData
deriving DecidableEq

/-- The parsed JSON content of `shared_state.json` as written by
`save_to_local_file`: buffered timestamps are serialized (ISO strings). -/
structure LocalState where
  current_scenario : String
  row_indices : List (String × Int)
  prediction_data : PredData
  data_buffer : List SnapItem
  last_update : String
deriving DecidableEq

/-- The state dict returned by the load paths: record-level fields plus a
buffer of raw items (timestamps parsed back to `datetime` by the repair loop,
or raw in-memory items when served from the pending cache). -/
structure LoadedState where
  current_scenario : String
  row_indices : List (String × Int)
  prediction_data : PredData
  data_buffer : List BufItem
  last_update : String
deriving DecidableEq

/-- One row of the `dashboard_data` worksheet as returned by
`get_all_records`: each header column maps to a cell value; `none` models a
missing key, `some ""` an empty cell. -/
structure Row where
  timestamp : Option String
  scenario : Option String
  row_indices : Option String
  prediction_data : Option String
  data_buffer : Option String
  last_update : Option String
deriving DecidableEq

/-- The pure codec functions the module calls: ISO-8601 parse/format and the
JSON encode/decode of the three structured columns.  A parse returning `none`
models the Python call raising. -/
structure Env where
  parseIso : String → Option Int
  fmtIso : Int → String
  parseRI : String → Option (List (String × Int))
  parsePD : String → Option PredData
  parseBuf : String → Option (List SnapItem)
  dumpRI : List (String × Int) → String
  dumpPD : PredData → String
  dumpBuf : List SnapItem → String

/-- The module-level mutable state of `shared_state.py` plus the shared local
file: `_last_save_time`, `_pending_data`, and the content of
`shared_state.json` (`none` = absent or unparseable). -/
structure SyncState where
  lastSaveTime : Int
  pendingData : Option PendingData
  localFile : Option LocalState
deriving DecidableEq

/-- Python's `l[-n:]`: the last `n` elements (the whole list when shorter). -/
def takeLast {α : Type} (n : Nat) (l : List α) : List α :=
  l.drop (l.length - n)

/-- All-or-nothing map: `none` as soon as `f` fails on one element, modelling
a loop that raises out of the enclosing `try`. -/
def mapOrNone {α β : Type} (f : α → Option β) : List α → Option (List β)
  | [] => some []
  | x :: xs =>
    match f x, mapOrNone f xs with
    | some y, some ys => some (y :: ys)
    | _, _ => none

/-- The dict elements of a raw buffer, in order (the
`isinstance(item, dict)` filter of the cleaning loops). -/
def dictsOf (l : List BufItem) : List SnapItem :=
  l.filterMap (fun x => match x with | .dict s => some s | .nonDict _ => none)

/-- Serialization of one buffered item for persistence:
`cleaned_item['timestamp'] = cleaned_item['timestamp'].isoformat()`.  Calling
`.isoformat()` on a value that is already a string raises, aborting the whole
save, hence `none` on a `.str` timestamp. -/
def cleanItem (env : Env) (s : SnapItem) : Option SnapItem :=
  match s.timestamp with
  | none => some s
  | some (.dt t) => some { s with timestamp := some (.str (env.fmtIso t)) }
  | some (.str _) => none

/-- The cleaning loop shared by `save_to_local_file` and
`save_in_background`: slice to the last 20 items, keep the dicts, serialize
each timestamp (all-or-nothing: a raising item aborts the save). -/
def cleanBuffer (env : Env) (buf : List BufItem) : Option (List SnapItem) :=
  mapOrNone (cleanItem env) (dictsOf (takeLast 20 buf))

/-- Timestamp conversion with repair, as in `load_from_local_file` and the
Google-Sheets branch of `load_shared_state` (shared_state.py): a string
timestamp is parsed, and on a parse error `datetime.now()` is substituted;
non-string timestamps pass through the `isinstance` guard unchanged. -/
def repairTs (env : Env) (now : Int) (s : SnapItem) : SnapItem :=
  match s.timestamp with
  | some (.str v) =>
    { s with timestamp := some (.dt (match env.parseIso v with
        | some t => t
        | none => now)) }
  | _ => s

/-- Timestamp conversion without repair, as in the sheets-variant
`load_shared_state`: there the `fromisoformat` call is not wrapped in its own
`try`, so a malformed string raises and the whole read returns `None`. -/
def strictTs (env : Env) (s : SnapItem) : Option SnapItem :=
  match s.timestamp with
  | some (.str v) =>
    match env.parseIso v with
    | some t => some { s with timestamp := some (.dt t) }
    | none => none
  | _ => some s

/-- The state dict that the pending-cache serve paths build from
`_pending_data`: raw buffer sliced to its last 20 items, `last_update`
stamped with the current time (`datetime.now().isoformat()`). -/
def pendingToState (env : Env) (now : Int) (p : PendingData) : LoadedState :=
  { current_scenario := p.scenario
    row_indices := p.row_indices
    prediction_data := p.prediction_data
    data_buffer := takeLast 20 p.data_buffer
    last_update := env.fmtIso now }

/-- The required-fields test of `load_shared_state` (shared_state.py): each
of the five fields is present in the row and non-empty. -/
def fieldOk : Option String → Bool
  | none => false
  | some s => s ≠ ""

/-- All five required fields of a worksheet row are present and non-empty. -/
def rowFieldsOk (r : Row) : Bool :=
  fieldOk r.scenario && fieldOk r.row_indices && fieldOk r.prediction_data &&
    fieldOk r.data_buffer && fieldOk r.last_update

namespace SharedState

/-- `save_to_local_file` of shared_state.py: clean the buffer (a raising item
aborts with `False`), then overwrite the file with the five-key JSON object;
`ioOk = false` models an IO error of the write.  Returns the Python result
and the file content afterwards (unchanged on failure). -/
def save_to_local_file (env : Env) (now : Int) (ioOk : Bool) (buf : List BufItem)
    (scen : String) (ri : List (String × Int)) (pd : PredData)
    (oldFile : Option LocalState) : Bool × Option LocalState :=
  match cleanBuffer env buf with
  | none => (false, oldFile)
  | some cb =>
    if ioOk then
      (true, some { current_scenario := scen
                    row_indices := ri
                    prediction_data := pd
                    data_buffer := cb
                    last_update := env.fmtIso now })
    else (false, oldFile)

/-- `load_from_local_file` of shared_state.py: `none` when the file is absent
or its JSON does not parse; otherwise each buffered string timestamp is
parsed with per-item repair and the record-level fields pass through. -/
def load_from_local_file (env : Env) (now : Int) (file : Option LocalState) :
    Option LoadedState :=
  match file with
  | none => none
  | some st =>
    some { current_scenario := st.current_scenario
           row_indices := st.row_indices
           prediction_data := st.prediction_data
           data_buffer := (st.data_buffer.map (repairTs env now)).map BufItem.dict
           last_update := st.last_update }

/-- `save_in_background` of shared_state.py: with no worksheet the save is
skipped; otherwise the cleaned buffer and the JSON-encoded fields form the
row written to the sheet (`A2:F2`, with append as fallback — either way the
same row data).  `none` = nothing written (skip, or the cleaning raised). -/
def save_in_background (env : Env) (now : Int) (worksheetOk : Bool)
    (buf : List BufItem) (scen : String) (ri : List (String × Int))
    (pd : PredData) : Option Row :=
  if worksheetOk then
    match cleanBuffer env buf with
    | some cb =>
      some { timestamp := some (env.fmtIso now)
             scenario := some scen
             row_indices := some (env.dumpRI ri)
             prediction_data := some (env.dumpPD pd)
             data_buffer := some (env.dumpBuf cb)
             last_update := some (env.fmtIso now) }
    | none => none
  else none

/-- The Google-Sheets branch of `load_shared_state` (shared_state.py): take
the last fetched row, require the five fields present and non-empty, JSON
decode the three structured columns (a decode error raises out of the `try`,
yielding `none` and hence the local fallback), and repair buffered
timestamps.  `rows = none` models no worksheet or a raised exception. -/
def load_from_sheets (env : Env) (now : Int) (rows : Option (List Row)) :
    Option LoadedState :=
  match rows with
  | none => none
  | some rs =>
    match rs.getLast? with
    | none => none
    | some r =>
      if rowFieldsOk r then
        match r.scenario, r.row_indices, r.prediction_data, r.data_buffer, r.last_update with
        | some sc, some ri, some pd, some db, some lu =>
          match env.parseRI ri, env.parsePD pd, env.parseBuf db with
          | some riV, some pdV, some dbV =>
            some { current_scenario := sc
                   row_indices := riV
                   prediction_data := pdV
                   data_buffer := (dbV.map (repairTs env now)).map BufItem.dict
                   last_update := lu }
          | _, _, _ => none
        | _, _, _, _, _ => none
      else none

/-- `load_shared_state` of shared_state.py: Google Sheets first, local file
as fallback.  The pending cache is not consulted here. -/
def load_shared_state (env : Env) (now : Int) (rows : Option (List Row))
    (file : Option LocalState) : Option LoadedState :=
  match load_from_sheets env now rows with
  | some st => some st
  | none => load_from_local_file env now file

/-- The result of `save_shared_state`: the returned value, whether a remote
write was dispatched this call, and the module state afterwards. -/
structure SaveResult where
  result : Bool
  dispatched : Bool
  state : SyncState
deriving DecidableEq

/-- `save_shared_state` of shared_state.py: store the raw arguments in
`_pending_data`, dispatch a background remote write only when secrets are
available and at least 15 seconds passed since `_last_save_time`, always
write the local file, and return `True` unconditionally. -/
def save_shared_state (env : Env) (now : Int) (secretsOk ioOk : Bool)
    (buf : List BufItem) (scen : String) (ri : List (String × Int))
    (pd : PredData) (S : SyncState) : SaveResult :=
  let pending : Option PendingData :=
    some { data_buffer := buf, scenario := scen, row_indices := ri, prediction_data := pd }
  let dispatch := secretsOk && decide (now - S.lastSaveTime ≥ 15)
  let newLast := if dispatch then now else S.lastSaveTime
  let written := save_to_local_file env now ioOk buf scen ri pd S.localFile
  { result := true
    dispatched := dispatch
    state := { lastSaveTime := newLast, pendingData := pending, localFile := written.2 } }

/-- The `try` block of `is_state_fresh` (shared_state.py): load a state, parse
its `last_update` (a parse error raises, leaving the block), and keep it only
when its age is within `maxAge`. -/
def freshLoaded (env : Env) (now : Int) (rows : Option (List Row))
    (file : Option LocalState) (maxAge : Int) : Option LoadedState :=
  match load_shared_state env now rows file with
  | none => none
  | some st =>
    match env.parseIso st.last_update with
    | none => none
    | some lu => if now - lu ≤ maxAge then some st else none

/-- `is_state_fresh` of shared_state.py: return the loaded state when it is
fresh; otherwise (stale, absent, or unparseable `last_update`) fall back to
`_pending_data`, served as always-fresh; else `(False, None)`. -/
def is_state_fresh (env : Env) (now : Int) (rows : Option (List Row))
    (S : SyncState) (maxAge : Int) : Bool × Option LoadedState :=
  match freshLoaded env now rows S.localFile maxAge with
  | some st => (true, some st)
  | none =>
    match S.pendingData with
    | some p => (true, some (pendingToState env now p))
    | none => (false, none)

end SharedState

namespace Sheets

/-- The result of the sheets-variant `save_shared_state`: returned value,
dispatch flag, `_last_save_time` and `_pending_data` afterwards (this variant
has no local file tier). -/
structure SaveResult where
  result : Bool
  dispatched : Bool
  lastSaveTime : Int
  pending : Option PendingData
deriving DecidableEq

/-- `save_shared_state` of shared_state_sheets.py: store the raw arguments in
`_pending_data`, dispatch a background write only when at least 15 seconds
passed since `_last_save_time`, and return `True` either way. -/
def save_shared_state (now : Int) (buf : List BufItem) (scen : String)
    (ri : List (String × Int)) (pd : PredData) (lastSave : Int) : SaveResult :=
  let pending : Option PendingData :=
    some { data_buffer := buf, scenario := scen, row_indices := ri, prediction_data := pd }
  if now - lastSave ≥ 15 then
    { result := true, dispatched := true, lastSaveTime := now, pending := pending }
  else
    { result := true, dispatched := false, lastSaveTime := lastSave, pending := pending }

/-- The worksheet read of the sheets-variant `load_shared_state`: last fetched
row, no required-fields check, JSON decode (a missing key or a decode error
raises, caught into `None`), strict timestamp parse (a malformed buffered
timestamp also fails the whole read). -/
def remote_read (env : Env) (rows : Option (List Row)) : Option LoadedState :=
  match rows with
  | none => none
  | some rs =>
    match rs.getLast? with
    | none => none
    | some r =>
      match r.scenario, r.row_indices, r.prediction_data, r.data_buffer, r.last_update with
      | some sc, some ri, some pd, some db, some lu =>
        match env.parseRI ri, env.parsePD pd, env.parseBuf db with
        | some riV, some pdV, some dbV =>
          match mapOrNone (strictTs env) dbV with
          | some buf2 =>
            some { current_scenario := sc
                   row_indices := riV
                   prediction_data := pdV
                   data_buffer := buf2.map BufItem.dict
                   last_update := lu }
          | none => none
        | _, _, _ => none
      | _, _, _, _, _ => none

/-- `load_shared_state` of shared_state_sheets.py: serve `_pending_data`
immediately when present (buffer sliced to 20, `last_update` stamped now),
else read the worksheet.  There is no local-file fallback. -/
def load_shared_state (env : Env) (now : Int) (rows : Option (List Row))
    (pending : Option PendingData) : Option LoadedState :=
  match pending with
  | some p => some (pendingToState env now p)
  | none => remote_read env rows

/-- `is_state_fresh` of shared_state_sheets.py: `_pending_data` first, served
as always fresh; else load and compare the record's age with `maxAge`
(returning the state together with the boolean even when stale); a parse
error or an absent state yields `(False, None)`. -/
def is_state_fresh (env : Env) (now : Int) (rows : Option (List Row))
    (pending : Option PendingData) (maxAge : Int) : Bool × Option LoadedState :=
  match pending with
  | some p => (true, some (pendingToState env now p))
  | none =>
    match load_shared_state env now rows none with
    | none => (false, none)
    | some st =>
      match env.parseIso st.last_update with
      | none => (false, none)
      | some lu => (decide (now - lu ≤ maxAge), some st)

end Sheets

/-- Modelled from the spec's words, for the C1 refinement comparison only:
`load()` tries Pending Cache, then Remote Store Adapter, then Local Durable
Store, returning the first success. -/
def spec_load_order (env : Env) (now : Int) (pending : Option PendingData)
    (rows : Option (List Row)) (file : Option LocalState) : Option LoadedState :=
  match pending with
  | some p => some (pendingToState env now p)
  | none =>
    match SharedState.load_from_sheets env now rows with
    | some st => some st
    | none => SharedState.load_from_local_file env now file

/-! Concrete fixtures used by witnesses and counterexamples. -/

/-- A concrete prediction dict: class 0 with certain probability. -/
def pd0 : PredData := { prediction := 0, probabilities := [1, 0, 0], confidence := 1 }

/-- A concrete row-index cursor map. -/
def ri0 : List (String × Int) := [("normal", 5)]

/-- A concrete in-memory snapshot (timestamp a `datetime`). -/
def snapMem0 : SnapItem := { timestamp := some (TimeVal.dt 0), payload := [("pressure", 35)] }

/-- A concrete serialized snapshot (timestamp an ISO string). -/
def snapSer0 : SnapItem := { timestamp := some (TimeVal.str "LU0"), payload := [("pressure", 35)] }

/-- A concrete codec environment: the ISO codec knows the instants 0 and 100
(strings "LU0" and "LU100"), the JSON codec the three fixture values. -/
def env0 : Env :=
  { parseIso := fun s => if s = "LU0" then some 0 else if s = "LU100" then some 100 else none
    fmtIso := fun t => if t = 0 then "LU0" else if t = 100 then "LU100" else "LUx"
    parseRI := fun s => if s = "RI" then some ri0 else none
    parsePD := fun s => if s = "PD" then some pd0 else none
    parseBuf := fun s => if s = "DB" then some [snapSer0] else none
    dumpRI := fun _ => "RI"
    dumpPD := fun _ => "PD"
    dumpBuf := fun _ => "DB" }

/-- A concrete worksheet row holding a full record (scenario "remote"). -/
def row0 : Row :=
  { timestamp := some "T"
    scenario := some "remote"
    row_indices := some "RI"
    prediction_data := some "PD"
    data_buffer := some "DB"
    last_update := some "LU100" }

/-- A concrete pending-cache slot (scenario "pending"). -/
def p0 : PendingData :=
  { data_buffer := [BufItem.dict snapMem0], scenario := "pending"
    row_indices := ri0, prediction_data := pd0 }

/-- A concrete local file whose record is fresh at instant 100. -/
def fileFresh0 : LocalState :=
  { current_scenario := "local", row_indices := ri0, prediction_data := pd0
    data_buffer := [snapSer0], last_update := "LU100" }

/-- A concrete local file whose record dates from instant 0 (stale at 100). -/
def fileStale0 : LocalState :=
  { current_scenario := "local", row_indices := ri0, prediction_data := pd0
    data_buffer := [snapSer0], last_update := "LU0" }

/-- The state `load_shared_state env0` returns for the worksheet row `row0`. -/
def loadedRow0 : LoadedState :=
  { current_scenario := "remote", row_indices := ri0, prediction_data := pd0
    data_buffer := [BufItem.dict { timestamp := some (TimeVal.dt 0), payload := [("pressure", 35)] }]
    last_update := "LU100" }

/-- The state `load_from_local_file env0 100` returns for `fileStale0`. -/
def loadedStale0 : LoadedState :=
  { current_scenario := "local", row_indices := ri0, prediction_data := pd0
    data_buffer := [BufItem.dict { timestamp := some (TimeVal.dt 0), payload := [("pressure", 35)] }]
    last_update := "LU0" }

/-! Claim C1. -/

/-- C1, counterexample.  The claim says every `load_shared_state` call
consults the Pending Cache first and returns the first tier's successful
record.  At a concrete input where the pending cache holds a record
(scenario "pending") and the worksheet holds a full row (scenario "remote"),
`shared_state.load_shared_state` returns the worksheet record, while the
claimed tier order would return the pending record. -/
theorem C1_counterexample :
    SharedState.load_shared_state env0 0 (some [row0]) none = some loadedRow0 ∧
    spec_load_order env0 0 (some p0) (some [row0]) none = some (pendingToState env0 0 p0) ∧
    some loadedRow0 ≠ some (pendingToState env0 0 p0) := by
  refine ⟨by decide, by decide, by decide⟩

/-- C1, amended.  `shared_state.load_shared_state` consults the Remote Store
Adapter and then the Local Durable Store, returning the first success; the
Pending Cache is never consulted by it.  The sheets-variant
`load_shared_state` serves the Pending Cache first when non-empty and
otherwise reads the remote store, with no local fallback. -/
theorem C1_load_order (env : Env) (now : Int) (rows : Option (List Row))
    (file : Option LocalState) :
    (∀ st, SharedState.load_from_sheets env now rows = some st →
      SharedState.load_shared_state env now rows file = some st) ∧
    (SharedState.load_from_sheets env now rows = none →
      SharedState.load_shared_state env now rows file =
        SharedState.load_from_local_file env now file) ∧
    (∀ p, Sheets.load_shared_state env now rows (some p) =
      some (pendingToState env now p)) ∧
    (Sheets.load_shared_state env now rows none = Sheets.remote_read env rows) := by
  refine ⟨?_, ?_, fun p => rfl, rfl⟩
  · intro st h
    unfold SharedState.load_shared_state
    rw [h]
  · intro h
    unfold SharedState.load_shared_state
    rw [h]

/-- C1, witness: the amended order at the concrete fixtures. -/
theorem C1_load_order_witness :
    SharedState.load_shared_state env0 0 (some [row0]) none = some loadedRow0 ∧
    Sheets.load_shared_state env0 0 (some [row0]) (some p0) = some (pendingToState env0 0 p0) := by
  refine ⟨(C1_load_order env0 0 (some [row0]) none).1 loadedRow0 (by decide), ?_⟩
  exact (C1_load_order env0 0 (some [row0]) none).2.2.1 p0

/-! Claim C2. -/

/-- C2, counterexample.  The claim says the save call returns success if and
only if the pending-cache update and the local durable write both succeeded.
At a concrete input whose local write fails (IO error), the write reports
failure and leaves no file, yet `save_shared_state` still returns `True`. -/
theorem C2_counterexample :
    (SharedState.save_shared_state env0 0 true false [BufItem.dict snapMem0] "normal" ri0 pd0
      { lastSaveTime := 0, pendingData := none, localFile := none }).result = true ∧
    SharedState.save_to_local_file env0 0 false [BufItem.dict snapMem0] "normal" ri0 pd0 none =
      (false, none) := by
  refine ⟨rfl, by decide⟩

/-- C2, amended.  `save_shared_state` returns `True` unconditionally: the
remote outcome never affects the result, and a local write failure is
reported through `save_to_local_file`'s own result and leaves the file
unchanged, but neither raises nor changes the returned value. -/
theorem C2_save_result (env : Env) (now : Int) (secretsOk ioOk : Bool)
    (buf : List BufItem) (scen : String) (ri : List (String × Int)) (pd : PredData)
    (S : SyncState) :
    (SharedState.save_shared_state env now secretsOk ioOk buf scen ri pd S).result = true ∧
    (SharedState.save_shared_state env now secretsOk ioOk buf scen ri pd S).state.localFile =
      (SharedState.save_to_local_file env now ioOk buf scen ri pd S.localFile).2 ∧
    ((SharedState.save_to_local_file env now ioOk buf scen ri pd S.localFile).1 = false →
      (SharedState.save_shared_state env now secretsOk ioOk buf scen ri pd S).state.localFile =
        S.localFile) := by
  refine ⟨rfl, rfl, fun h => ?_⟩
  show (SharedState.save_to_local_file env now ioOk buf scen ri pd S.localFile).2 = S.localFile
  unfold SharedState.save_to_local_file at h ⊢
  cases hc : cleanBuffer env buf with
  | none => simp [hc]
  | some cb =>
    rw [hc] at h
    cases ioOk with
    | false => simp
    | true => simp at h

/-- C2, witness: a concrete save whose local write fails leaves the file
unchanged while the call still returns `True`. -/
theorem C2_save_result_witness :
    (SharedState.save_shared_state env0 0 true false [BufItem.dict snapMem0] "normal" ri0 pd0
      { lastSaveTime := 0, pendingData := none, localFile := none }).result = true ∧
    (SharedState.save_shared_state env0 0 true false [BufItem.dict snapMem0] "normal" ri0 pd0
      { lastSaveTime := 0, pendingData := none, localFile := none }).state.localFile = none := by
  have h := C2_save_result env0 0 true false [BufItem.dict snapMem0] "normal" ri0 pd0
    { lastSaveTime := 0, pendingData := none, localFile := none }
  exact ⟨h.1, h.2.2 (by decide)⟩

/-! Claim C3. -/

/-- C3, counterexample.  The claim says `is_state_fresh` reports fresh iff
`now - last_update <= maxAgeSeconds` for every loadable record with parseable
timestamp.  At a concrete input whose loaded record is 100 seconds old with
`maxAgeSeconds = 30`, but whose pending cache is non-empty,
`shared_state.is_state_fresh` still reports fresh. -/
theorem C3_counterexample :
    SharedState.load_shared_state env0 100 none (some fileStale0) = some loadedStale0 ∧
    env0.parseIso loadedStale0.last_update = some 0 ∧
    ¬ ((100 : Int) - 0 ≤ 30) ∧
    (SharedState.is_state_fresh env0 100 none
      { lastSaveTime := 0, pendingData := some p0, localFile := some fileStale0 } 30).1 =
      true := by
  refine ⟨by decide, by decide, by decide, by decide⟩

/-- C3, amended.  When the pending cache is empty, for every loadable record
with a parseable `last_update`, `is_state_fresh` reports fresh iff
`now - last_update <= maxAgeSeconds`; consequently, for a fixed record of
actual age `A = now - last_update`, the result is true for all
`maxAgeSeconds >= A` and false for all `maxAgeSeconds < A`.  (With a
non-empty pending cache the stale and unparseable cases are overridden by the
always-fresh pending fallback.) -/
theorem C3_freshness (env : Env) (now : Int) (rows : Option (List Row)) (S : SyncState)
    (maxAge lu : Int) (st : LoadedState)
    (hp : S.pendingData = none)
    (hload : SharedState.load_shared_state env now rows S.localFile = some st)
    (hlu : env.parseIso st.last_update = some lu) :
    ((SharedState.is_state_fresh env now rows S maxAge).1 = true ↔ now - lu ≤ maxAge) ∧
    (∀ m, now - lu ≤ m → (SharedState.is_state_fresh env now rows S m).1 = true) ∧
    (∀ m, m < now - lu → (SharedState.is_state_fresh env now rows S m).1 = false) := by
  have key : ∀ m : Int, (SharedState.is_state_fresh env now rows S m).1 =
      decide (now - lu ≤ m) := by
    intro m
    by_cases hm : now - lu ≤ m
    · simp [SharedState.is_state_fresh, SharedState.freshLoaded, hload, hlu, hm]
    · simp [SharedState.is_state_fresh, SharedState.freshLoaded, hload, hlu, hm, hp]
  refine ⟨?_, ?_, ?_⟩
  · rw [key maxAge]; simp
  · intro m hm; rw [key m]; simpa using hm
  · intro m hm; rw [key m]; simp only [decide_eq_false_iff_not]; omega

/-- C3, witness: at the concrete stale record (age 100), a window of 200
seconds reports fresh. -/
theorem C3_freshness_witness :
    (SharedState.is_state_fresh env0 100 none
      { lastSaveTime := 0, pendingData := none, localFile := some fileStale0 } 200).1 = true := by
  have h := C3_freshness env0 100 none
    { lastSaveTime := 0, pendingData := none, localFile := some fileStale0 }
    200 0 loadedStale0 rfl (by decide) (by decide)
  exact h.2.1 200 (by decide)

/-! Claim C4. -/

/-- C4, confirmed.  A remote write is dispatched on a save only when
`now - lastSaveTime >= 15`; otherwise the remote tier is skipped while the
pending cache and the local tier are still updated.  Two saves issued 2
seconds apart trigger at most one remote dispatch, and a further save issued
16 seconds after the second (secrets available, `lastSaveTime` not in the
future) triggers a new dispatch. -/
theorem C4_debounce (env : Env) (t : Int) (sa1 sa2 io1 io2 io3 : Bool)
    (b1 b2 b3 : List BufItem) (s1 s2 s3 : String)
    (r1 r2 r3 : List (String × Int)) (q1 q2 q3 : PredData) (S : SyncState)
    (hL : S.lastSaveTime ≤ t) :
    (∀ (now : Int) (sa io : Bool) (buf : List BufItem) (scen : String)
        (ri : List (String × Int)) (pd : PredData) (T : SyncState),
      ((SharedState.save_shared_state env now sa io buf scen ri pd T).dispatched = true →
        now - T.lastSaveTime ≥ 15) ∧
      (SharedState.save_shared_state env now sa io buf scen ri pd T).state.pendingData =
        some { data_buffer := buf, scenario := scen, row_indices := ri, prediction_data := pd } ∧
      (SharedState.save_shared_state env now sa io buf scen ri pd T).state.localFile =
        (SharedState.save_to_local_file env now io buf scen ri pd T.localFile).2) ∧
    ¬ ((SharedState.save_shared_state env t sa1 io1 b1 s1 r1 q1 S).dispatched = true ∧
       (SharedState.save_shared_state env (t + 2) sa2 io2 b2 s2 r2 q2
         (SharedState.save_shared_state env t sa1 io1 b1 s1 r1 q1 S).state).dispatched = true) ∧
    (SharedState.save_shared_state env (t + 2 + 16) true io3 b3 s3 r3 q3
      (SharedState.save_shared_state env (t + 2) sa2 io2 b2 s2 r2 q2
        (SharedState.save_shared_state env t sa1 io1 b1 s1 r1 q1 S).state).state).dispatched =
      true := by
  have hd : ∀ (now : Int) (sa io : Bool) (buf : List BufItem) (scen : String)
      (ri : List (String × Int)) (pd : PredData) (T : SyncState),
      (SharedState.save_shared_state env now sa io buf scen ri pd T).dispatched =
        (sa && decide (now - T.lastSaveTime ≥ 15)) := fun _ _ _ _ _ _ _ _ => rfl
  have hl : ∀ (now : Int) (sa io : Bool) (buf : List BufItem) (scen : String)
      (ri : List (String × Int)) (pd : PredData) (T : SyncState),
      (SharedState.save_shared_state env now sa io buf scen ri pd T).state.lastSaveTime =
        if (sa && decide (now - T.lastSaveTime ≥ 15)) = true then now else T.lastSaveTime :=
    fun _ _ _ _ _ _ _ _ => rfl
  refine ⟨?_, ?_, ?_⟩
  · intro now sa io buf scen ri pd T
    refine ⟨?_, rfl, rfl⟩
    intro h
    rw [hd] at h
    exact of_decide_eq_true ((Bool.and_eq_true _ _).mp h).2
  · rintro ⟨h1, h2⟩
    rw [hd] at h1
    rw [hd, hl] at h2
    rw [h1] at h2
    simp at h2
  · have hL1 : (SharedState.save_shared_state env t sa1 io1 b1 s1 r1 q1 S).state.lastSaveTime ≤
        t := by
      rw [hl]; split
      · exact le_refl t
      · exact hL
    have hL2 : (SharedState.save_shared_state env (t + 2) sa2 io2 b2 s2 r2 q2
        (SharedState.save_shared_state env t sa1 io1 b1 s1 r1 q1 S).state).state.lastSaveTime ≤
        t + 2 := by
      rw [hl]; split
      · exact le_refl _
      · omega
    rw [hd]
    simp only [Bool.true_and]
    exact decide_eq_true (by omega)

/-- C4, witness: from `lastSaveTime = 0`, saves at instants 0, 2 and 18 with
secrets available; the third save dispatches. -/
theorem C4_debounce_witness :
    (SharedState.save_shared_state env0 (0 + 2 + 16) true true [] "normal" ri0 pd0
      (SharedState.save_shared_state env0 (0 + 2) true true [] "normal" ri0 pd0
        (SharedState.save_shared_state env0 0 true true [] "normal" ri0 pd0
          { lastSaveTime := 0, pendingData := none, localFile := none }).state).state).dispatched =
      true := by
  have h := C4_debounce env0 0 true true true true true [] [] [] "normal" "normal" "normal"
    ri0 ri0 ri0 pd0 pd0 pd0 { lastSaveTime := 0, pendingData := none, localFile := none }
    (by decide)
  exact h.2.2

/-! Helper notions and lemmas for the bounded-buffer claims. -/

/-- A buffered item whose timestamp the serialization loop can handle: absent
or a `datetime` object (not already a string). -/
def tsOk (s : SnapItem) : Bool :=
  match s.timestamp with
  | some (.str _) => false
  | _ => true

/-- The total serialization of one such item (its timestamp ISO-formatted). -/
def serItem (env : Env) (s : SnapItem) : SnapItem :=
  match s.timestamp with
  | some (.dt t) => { s with timestamp := some (.str (env.fmtIso t)) }
  | _ => s

/-- One `save_shared_state` call of a sequence: its instant, environment
availabilities and arguments. -/
structure SaveCall where
  now : Int
  secretsOk : Bool
  ioOk : Bool
  buf : List BufItem
  scenario : String
  row_indices : List (String × Int)
  prediction_data : PredData

/-- The module state after a sequence of `save_shared_state` calls. -/
def runSaves (env : Env) (calls : List SaveCall) (S : SyncState) : SyncState :=
  match calls with
  | [] => S
  | c :: rest =>
    runSaves env rest
      (SharedState.save_shared_state env c.now c.secretsOk c.ioOk c.buf c.scenario
        c.row_indices c.prediction_data S).state

theorem takeLast_length_le {α : Type} (n : Nat) (l : List α) :
    (takeLast n l).length ≤ n := by
  simp only [takeLast, List.length_drop]
  omega

theorem takeLast_subset {α : Type} (n : Nat) (l : List α) : takeLast n l ⊆ l := by
  intro x hx
  simp only [takeLast] at hx
  exact List.drop_subset _ _ hx

theorem takeLast_map {α β : Type} (g : α → β) (n : Nat) (l : List α) :
    takeLast n (l.map g) = (takeLast n l).map g := by
  simp only [takeLast, List.length_map, List.map_drop]

theorem mapOrNone_length {α β : Type} (f : α → Option β) :
    ∀ (l : List α) (r : List β), mapOrNone f l = some r → r.length = l.length := by
  intro l
  induction l with
  | nil =>
    intro r h
    simp only [mapOrNone, Option.some.injEq] at h
    rw [← h]
    rfl
  | cons x xs ih =>
    intro r h
    simp only [mapOrNone] at h
    cases hf : f x with
    | none => rw [hf] at h; simp at h
    | some y =>
      rw [hf] at h
      cases hm : mapOrNone f xs with
      | none => rw [hm] at h; simp at h
      | some ys =>
        rw [hm] at h
        simp only [Option.some.injEq] at h
        rw [← h]
        simp [ih ys hm]

theorem mapOrNone_all_some {α β : Type} (f : α → Option β) (g : α → β) :
    ∀ l : List α, (∀ x ∈ l, f x = some (g x)) → mapOrNone f l = some (l.map g) := by
  intro l
  induction l with
  | nil => intro _; rfl
  | cons x xs ih =>
    intro h
    have hx := h x (by simp)
    have hxs := ih (fun y hy => h y (by simp [hy]))
    simp only [mapOrNone, hx, hxs, List.map]

theorem cleanBuffer_length_le (env : Env) (buf : List BufItem) (cb : List SnapItem)
    (h : cleanBuffer env buf = some cb) : cb.length ≤ 20 := by
  have h1 := mapOrNone_length (cleanItem env) _ _ h
  have h2 : (dictsOf (takeLast 20 buf)).length ≤ (takeLast 20 buf).length :=
    List.length_filterMap_le _ _
  have h3 := takeLast_length_le 20 buf
  omega

theorem dictsOf_map_dict (l : List SnapItem) : dictsOf (l.map BufItem.dict) = l := by
  induction l with
  | nil => rfl
  | cons x xs ih =>
    simp only [dictsOf, List.map_cons, List.filterMap_cons] at ih ⊢
    rw [ih]

theorem cleanItem_ok (env : Env) (s : SnapItem) (h : tsOk s = true) :
    cleanItem env s = some (serItem env s) := by
  cases s with
  | mk ts pl =>
    cases ts with
    | none => rfl
    | some v =>
      cases v with
      | dt t => rfl
      | str w => simp [tsOk] at h

theorem save_preserves_bound (env : Env) (now : Int) (sa io : Bool) (buf : List BufItem)
    (scen : String) (ri : List (String × Int)) (pd : PredData) (S : SyncState)
    (hS : ∀ st, S.localFile = some st → st.data_buffer.length ≤ 20) :
    ∀ st, (SharedState.save_shared_state env now sa io buf scen ri pd S).state.localFile =
      some st → st.data_buffer.length ≤ 20 := by
  intro st h
  have heq : (SharedState.save_shared_state env now sa io buf scen ri pd S).state.localFile =
      (SharedState.save_to_local_file env now io buf scen ri pd S.localFile).2 := rfl
  rw [heq] at h
  unfold SharedState.save_to_local_file at h
  cases hc : cleanBuffer env buf with
  | none => rw [hc] at h; exact hS st h
  | some cb =>
    rw [hc] at h
    cases io with
    | false => simp only [Bool.false_eq_true, if_false] at h; exact hS st h
    | true =>
      simp only [if_true, Option.some.injEq] at h
      rw [← h]
      exact cleanBuffer_length_le env buf cb hc

/-! Claim C5. -/

/-- C5, confirmed.  After any sequence of saves, the local file's persisted
`data_buffer` never exceeds 20 items (given the initial file obeys the bound;
in particular from an absent file).  The cleaning step shared by the local
write and the remote row write keeps, for a buffer of snapshot dicts with
serializable timestamps, exactly the last 20 items of the input (oldest
evicted first, timestamps ISO-formatted), and the remote row persists exactly
that cleaned, capped buffer. -/
theorem C5_bounded_buffer (env : Env) (calls : List SaveCall) (S : SyncState)
    (now : Int) (worksheetOk : Bool) (buf : List BufItem) (sbuf : List SnapItem)
    (scen : String) (ri : List (String × Int)) (pd : PredData)
    (hS : ∀ st, S.localFile = some st → st.data_buffer.length ≤ 20)
    (hts : ∀ s ∈ sbuf, tsOk s = true) :
    (∀ st, (runSaves env calls S).localFile = some st → st.data_buffer.length ≤ 20) ∧
    (∀ cb, cleanBuffer env buf = some cb → cb.length ≤ 20) ∧
    cleanBuffer env (sbuf.map BufItem.dict) =
      some ((takeLast 20 sbuf).map (serItem env)) ∧
    (∀ row cb, SharedState.save_in_background env now worksheetOk buf scen ri pd = some row →
      cleanBuffer env buf = some cb →
      row.data_buffer = some (env.dumpBuf cb) ∧ cb.length ≤ 20) := by
  refine ⟨?_, ?_, ?_, ?_⟩
  · clear hts
    induction calls generalizing S with
    | nil => exact hS
    | cons c rest ih =>
      intro st h
      exact ih _ (save_preserves_bound env c.now c.secretsOk c.ioOk c.buf c.scenario
        c.row_indices c.prediction_data S hS) st h
  · exact fun cb h => cleanBuffer_length_le env buf cb h
  · unfold cleanBuffer
    rw [takeLast_map, dictsOf_map_dict]
    exact mapOrNone_all_some _ _ _
      (fun x hx => cleanItem_ok env x (hts x (takeLast_subset 20 sbuf hx)))
  · intro row cb hrow hcb
    unfold SharedState.save_in_background at hrow
    cases worksheetOk with
    | false => simp at hrow
    | true =>
      rw [hcb] at hrow
      simp only [if_true, Option.some.injEq] at hrow
      rw [← hrow]
      exact ⟨rfl, cleanBuffer_length_le env buf cb hcb⟩

/-- A concrete buffer of 25 serializable snapshot dicts. -/
def sbuf25 : List SnapItem := List.replicate 25 snapMem0

/-- C5, witness: the cleaning of the 25-item buffer keeps exactly its last 20
items, and the empty save sequence from an absent file obeys the bound. -/
theorem C5_bounded_buffer_witness :
    cleanBuffer env0 (sbuf25.map BufItem.dict) =
      some ((takeLast 20 sbuf25).map (serItem env0)) ∧
    (∀ st, (runSaves env0 [] { lastSaveTime := 0, pendingData := none, localFile := none }).localFile =
      some st → st.data_buffer.length ≤ 20) := by
  have h := C5_bounded_buffer env0 []
    { lastSaveTime := 0, pendingData := none, localFile := none }
    0 true [] sbuf25 "normal" ri0 pd0
    (fun st hst => by simp at hst)
    (fun s hs => by rw [List.eq_of_mem_replicate hs]; decide)
  exact ⟨h.2.2.1, h.1⟩

/-! Claim C6. -/

/-- C6, confirmed.  Loading a local file whose JSON parses but where one
buffered item's timestamp string is malformed succeeds, and in the returned
record only that item's timestamp is replaced by the current time; every
other buffered item keeps its payload and (for a parseable timestamp string)
its instant, items without a timestamp pass through unchanged, and every
record-level field is returned unchanged. -/
theorem C6_repair (env : Env) (now : Int) (st : LocalState) (out : LoadedState)
    (i : Nat) (si : SnapItem) (bad : String)
    (hout : SharedState.load_from_local_file env now (some st) = some out)
    (hi : st.data_buffer[i]? = some si)
    (hbad : si.timestamp = some (TimeVal.str bad))
    (hfail : env.parseIso bad = none) :
    out.current_scenario = st.current_scenario ∧
    out.row_indices = st.row_indices ∧
    out.prediction_data = st.prediction_data ∧
    out.last_update = st.last_update ∧
    out.data_buffer.length = st.data_buffer.length ∧
    out.data_buffer[i]? =
      some (BufItem.dict { si with timestamp := some (TimeVal.dt now) }) ∧
    (∀ (j : Nat) (sj : SnapItem) (w : String) (t : Int),
      st.data_buffer[j]? = some sj → sj.timestamp = some (TimeVal.str w) →
      env.parseIso w = some t →
      out.data_buffer[j]? = some (BufItem.dict { sj with timestamp := some (TimeVal.dt t) })) ∧
    (∀ (j : Nat) (sj : SnapItem), st.data_buffer[j]? = some sj → sj.timestamp = none →
      out.data_buffer[j]? = some (BufItem.dict sj)) := by
  have hout2 : out =
      { current_scenario := st.current_scenario,
        row_indices := st.row_indices,
        prediction_data := st.prediction_data,
        data_buffer := (st.data_buffer.map (repairTs env now)).map BufItem.dict,
        last_update := st.last_update } := by
    unfold SharedState.load_from_local_file at hout
    exact (Option.some_injective _ hout).symm
  subst hout2
  refine ⟨rfl, rfl, rfl, rfl, by simp, ?_, ?_, ?_⟩
  · simp [List.getElem?_map, hi, repairTs, hbad, hfail]
  · intro j sj w t hj hw ht
    simp [List.getElem?_map, hj, repairTs, hw, ht]
  · intro j sj hj hnone
    simp [List.getElem?_map, hj, repairTs, hnone]

/-- A concrete local file whose first buffered item has a malformed timestamp
and whose second item is well-formed. -/
def fileMixed0 : LocalState :=
  { current_scenario := "local", row_indices := ri0, prediction_data := pd0
    data_buffer :=
      [{ timestamp := some (TimeVal.str "BAD"), payload := [("pressure", 35)] }, snapSer0]
    last_update := "LU100" }

/-- The record `load_from_local_file env0 100` returns for `fileMixed0`. -/
def outMixed0 : LoadedState :=
  { current_scenario := "local", row_indices := ri0, prediction_data := pd0
    data_buffer :=
      [BufItem.dict { timestamp := some (TimeVal.dt 100), payload := [("pressure", 35)] },
       BufItem.dict { timestamp := some (TimeVal.dt 0), payload := [("pressure", 35)] }]
    last_update := "LU100" }

/-- C6, witness: on the concrete mixed file only the malformed item's
timestamp becomes the current time (100); the well-formed item keeps its
instant and the record-level fields pass through. -/
theorem C6_repair_witness :
    outMixed0.current_scenario = fileMixed0.current_scenario ∧
    outMixed0.last_update = fileMixed0.last_update ∧
    outMixed0.data_buffer[0]? =
      some (BufItem.dict { timestamp := some (TimeVal.dt 100), payload := [("pressure", 35)] }) ∧
    outMixed0.data_buffer[1]? =
      some (BufItem.dict { timestamp := some (TimeVal.dt 0), payload := [("pressure", 35)] }) := by
  have h := C6_repair env0 100 fileMixed0 outMixed0 0
    { timestamp := some (TimeVal.str "BAD"), payload := [("pressure", 35)] } "BAD"
    (by decide) (by decide) rfl rfl
  refine ⟨h.1, h.2.2.2.1, h.2.2.2.2.2.1, ?_⟩
  exact h.2.2.2.2.2.2.1 1 snapSer0 "LU0" 0 (by decide) rfl (by decide)

/-! Claim C7. -/

/-- C7, confirmed.  A save followed immediately by a load in the same process
returns a record whose scenario, row indices and prediction data equal the
saved inputs, even with the remote tier unreachable: in the sheets variant
through the pending-cache short-circuit of `load_shared_state` (for any
remote condition), and in shared_state.py through the always-written local
file (given the inputs serialize and the write's IO succeeds). -/
theorem C7_round_trip (env : Env) (now now2 : Int) (sa : Bool) (buf : List BufItem)
    (scen : String) (ri : List (String × Int)) (pd : PredData) (S : SyncState)
    (lastSave : Int) (cb : List SnapItem)
    (hclean : cleanBuffer env buf = some cb) :
    (∀ rows, ∃ out, Sheets.load_shared_state env now2 rows
        (Sheets.save_shared_state now buf scen ri pd lastSave).pending = some out ∧
      out.current_scenario = scen ∧ out.row_indices = ri ∧ out.prediction_data = pd) ∧
    (∃ out, SharedState.load_shared_state env now2 none
        (SharedState.save_shared_state env now sa true buf scen ri pd S).state.localFile =
        some out ∧
      out.current_scenario = scen ∧ out.row_indices = ri ∧ out.prediction_data = pd) := by
  constructor
  · intro rows
    have hp : (Sheets.save_shared_state now buf scen ri pd lastSave).pending =
        some { data_buffer := buf, scenario := scen, row_indices := ri,
               prediction_data := pd } := by
      unfold Sheets.save_shared_state
      split <;> rfl
    refine ⟨pendingToState env now2
      { data_buffer := buf, scenario := scen, row_indices := ri, prediction_data := pd },
      ?_, rfl, rfl, rfl⟩
    rw [hp]
    rfl
  · have hfile : (SharedState.save_shared_state env now sa true buf scen ri pd S).state.localFile =
        some { current_scenario := scen, row_indices := ri, prediction_data := pd,
               data_buffer := cb, last_update := env.fmtIso now } := by
      show (SharedState.save_to_local_file env now true buf scen ri pd S.localFile).2 = _
      unfold SharedState.save_to_local_file
      rw [hclean]
      rfl
    rw [hfile]
    exact ⟨_, rfl, rfl, rfl, rfl⟩

/-- C7, witness: the round trip at the concrete one-snapshot save, with the
remote tier unreachable. -/
theorem C7_round_trip_witness :
    (∃ out, Sheets.load_shared_state env0 100 none
        (Sheets.save_shared_state 0 [BufItem.dict snapMem0] "normal" ri0 pd0 0).pending =
        some out ∧ out.current_scenario = "normal" ∧ out.row_indices = ri0 ∧
        out.prediction_data = pd0) ∧
    (∃ out, SharedState.load_shared_state env0 100 none
        (SharedState.save_shared_state env0 0 true true [BufItem.dict snapMem0] "normal" ri0 pd0
          { lastSaveTime := 0, pendingData := none, localFile := none }).state.localFile =
        some out ∧ out.current_scenario = "normal" ∧ out.row_indices = ri0 ∧
        out.prediction_data = pd0) := by
  have h := C7_round_trip env0 0 100 true [BufItem.dict snapMem0] "normal" ri0 pd0
    { lastSaveTime := 0, pendingData := none, localFile := none } 0 [snapSer0] (by decide)
  exact ⟨h.1 none, h.2⟩

/-! Claim C8. -/

/-- The state `load_shared_state env0 100` returns for `fileFresh0`. -/
def loadedFresh0 : LoadedState :=
  { current_scenario := "local", row_indices := ri0, prediction_data := pd0
    data_buffer :=
      [BufItem.dict { timestamp := some (TimeVal.dt 0), payload := [("pressure", 35)] }]
    last_update := "LU100" }

/-- C8, counterexample.  The claim says that whenever the pending cache is
non-empty, `is_state_fresh` returns the pending record regardless of what the
storage tiers hold.  At a concrete input where the pending cache holds a
record (scenario "pending") and the local tier holds a fresh record (scenario
"local"), `shared_state.is_state_fresh` returns the loaded record, not the
pending one. -/
theorem C8_counterexample :
    ({ lastSaveTime := 0, pendingData := some p0, localFile := some fileFresh0 } :
      SyncState).pendingData = some p0 ∧
    SharedState.is_state_fresh env0 100 none
      { lastSaveTime := 0, pendingData := some p0, localFile := some fileFresh0 } 30 =
      (true, some loadedFresh0) ∧
    some loadedFresh0 ≠ some (pendingToState env0 100 p0) := by
  refine ⟨rfl, by decide, by decide⟩

/-- C8, amended.  `shared_state.is_state_fresh` consults the pending cache
only after the load-and-freshness attempt fails (record absent, `last_update`
unparseable, or stale); in that case, with a non-empty pending cache, it
returns `(true, pending record)` regardless of `maxAgeSeconds`, the returned
record's `last_update` stamped with the current time.  When the attempt
yields a fresh record, that record is returned even though the pending cache
is non-empty.  Only the sheets variant's `is_state_fresh` prefers the pending
cache over all storage tiers. -/
theorem C8_pending_order (env : Env) (now : Int) (rows : Option (List Row))
    (S : SyncState) (maxAge : Int) (p : PendingData)
    (hp : S.pendingData = some p) :
    (SharedState.freshLoaded env now rows S.localFile maxAge = none →
      SharedState.is_state_fresh env now rows S maxAge =
        (true, some (pendingToState env now p))) ∧
    (∀ st, SharedState.freshLoaded env now rows S.localFile maxAge = some st →
      SharedState.is_state_fresh env now rows S maxAge = (true, some st)) ∧
    (pendingToState env now p).last_update = env.fmtIso now ∧
    Sheets.is_state_fresh env now rows (some p) maxAge =
      (true, some (pendingToState env now p)) := by
  refine ⟨?_, ?_, rfl, rfl⟩
  · intro h
    unfold SharedState.is_state_fresh
    rw [h, hp]
  · intro st h
    unfold SharedState.is_state_fresh
    rw [h]

/-- C8, witness: with a stale local record, both variants serve the concrete
pending record as fresh. -/
theorem C8_pending_order_witness :
    SharedState.is_state_fresh env0 100 none
      { lastSaveTime := 0, pendingData := some p0, localFile := some fileStale0 } 30 =
      (true, some (pendingToState env0 100 p0)) ∧
    Sheets.is_state_fresh env0 100 none (some p0) 30 =
      (true, some (pendingToState env0 100 p0)) := by
  have h := C8_pending_order env0 100 none
    { lastSaveTime := 0, pendingData := some p0, localFile := some fileStale0 } 30 p0 rfl
  exact ⟨h.1 (by decide), h.2.2.2⟩

/-! Claim C9. -/

/-- C9, confirmed.  The remote read of `load_shared_state` takes the last
fetched row and yields a record only when the five required fields are
present and non-empty in that row; with no worksheet or any exception during
connect, handle acquisition or read (`rows = none`) the result is absent and
the call falls back to the local tier; a last row with a missing or empty
required field also yields absent. -/
theorem C9_remote_read (env : Env) (now : Int) (rows : Option (List Row))
    (file : Option LocalState) :
    (∀ st, SharedState.load_from_sheets env now rows = some st →
      ∃ rs r, rows = some rs ∧ rs.getLast? = some r ∧ rowFieldsOk r = true) ∧
    SharedState.load_from_sheets env now none = none ∧
    (rows = none →
      SharedState.load_shared_state env now rows file =
        SharedState.load_from_local_file env now file) ∧
    (∀ rs r, rows = some rs → rs.getLast? = some r → rowFieldsOk r = false →
      SharedState.load_from_sheets env now rows = none) := by
  refine ⟨?_, rfl, ?_, ?_⟩
  · intro st h
    cases rows with
    | none => simp [SharedState.load_from_sheets] at h
    | some rs =>
      cases hlast : rs.getLast? with
      | none =>
        rw [show SharedState.load_from_sheets env now (some rs) = none by
          simp [SharedState.load_from_sheets, hlast]] at h
        exact absurd h (by simp)
      | some r =>
        by_cases hok : rowFieldsOk r = true
        · exact ⟨rs, r, rfl, hlast, hok⟩
        · rw [show SharedState.load_from_sheets env now (some rs) = none by
            simp [SharedState.load_from_sheets, hlast, hok]] at h
          exact absurd h (by simp)
  · intro h
    subst h
    rfl
  · intro rs r hrs hlast hok
    subst hrs
    simp [SharedState.load_from_sheets, hlast, hok]

/-- C9, witness: the full concrete row is accepted, and with the remote tier
unreachable the load equals the local read. -/
theorem C9_remote_read_witness :
    (∃ rs r, (some [row0] : Option (List Row)) = some rs ∧ rs.getLast? = some r ∧
      rowFieldsOk r = true) ∧
    SharedState.load_shared_state env0 0 none (some fileStale0) =
      SharedState.load_from_local_file env0 0 (some fileStale0) := by
  refine ⟨(C9_remote_read env0 0 (some [row0]) none).1 loadedRow0 (by decide), ?_⟩
  exact (C9_remote_read env0 0 none (some fileStale0)).2.2.1 rfl

/-! Claim C10. -/

/-- C10, confirmed.  `save_shared_state` stores the producer's full,
untruncated buffer in the pending slot; the 20-item cap is applied only when
a record is served from the pending cache: the served record's buffer is
exactly the slot's last 20 items, hence of length at most 20 (exactly 20 when
the slot holds at least 20), while the slot itself may hold more. -/
theorem C10_pending_untruncated (env : Env) (now : Int) (sa io : Bool)
    (buf : List BufItem) (scen : String) (ri : List (String × Int)) (pd : PredData)
    (S : SyncState) (p : PendingData) (rows : Option (List Row)) (maxAge : Int) :
    (SharedState.save_shared_state env now sa io buf scen ri pd S).state.pendingData =
      some { data_buffer := buf, scenario := scen, row_indices := ri, prediction_data := pd } ∧
    (pendingToState env now p).data_buffer = takeLast 20 p.data_buffer ∧
    (pendingToState env now p).data_buffer.length ≤ 20 ∧
    (20 ≤ p.data_buffer.length → (pendingToState env now p).data_buffer.length = 20) ∧
    (S.pendingData = some p →
      SharedState.freshLoaded env now rows S.localFile maxAge = none →
      (SharedState.is_state_fresh env now rows S maxAge).2 =
        some (pendingToState env now p)) ∧
    (Sheets.load_shared_state env now rows (some p) = some (pendingToState env now p)) := by
  refine ⟨rfl, rfl, ?_, ?_, ?_, rfl⟩
  · exact takeLast_length_le 20 p.data_buffer
  · intro h
    show (takeLast 20 p.data_buffer).length = 20
    simp only [takeLast, List.length_drop]
    omega
  · intro hp hfl
    unfold SharedState.is_state_fresh
    rw [hfl, hp]

/-- A concrete pending slot holding 25 buffered items. -/
def p25 : PendingData :=
  { data_buffer := List.replicate 25 (BufItem.dict snapMem0), scenario := "normal"
    row_indices := ri0, prediction_data := pd0 }

/-- C10, witness: the concrete save of 25 items leaves all 25 in the pending
slot, and the record served from it carries exactly 20. -/
theorem C10_pending_untruncated_witness :
    (SharedState.save_shared_state env0 0 true true p25.data_buffer "normal" ri0 pd0
      { lastSaveTime := 0, pendingData := none, localFile := none }).state.pendingData =
      some p25 ∧
    p25.data_buffer.length = 25 ∧
    (pendingToState env0 0 p25).data_buffer.length = 20 := by
  have h := C10_pending_untruncated env0 0 true true p25.data_buffer "normal" ri0 pd0
    { lastSaveTime := 0, pendingData := none, localFile := none } p25 none 30
  exact ⟨h.1, by decide, h.2.2.2.1 (by decide)⟩
